import Mathlib

/-!
Shallow embedding of the deal-evaluation pipeline of the `flipper` repository
(`src/analysis/deal_analyzer.py`, `src/analysis/property_scorer.py`,
`src/analysis/repair_estimator.py`, `src/app.py`, `src/models/property.py`,
`src/config/settings.py`), together with theorems settling the frozen claims.

Conventions of the embedding:
* Python floats are embedded as `ℚ` (exact arithmetic; the claims speak of
  identities up to floating tolerance, which hold exactly over `ℚ`).
* Python `int(x)` truncates toward zero; it is embedded via `Int.tdiv` on the
  numerator/denominator of the rational.
* A Python function that can raise is embedded as an `Option`; `none` models
  the raised exception (here: `ZeroDivisionError` from `/` by `0.0`).
* Dates (`YYYY-MM-DD` strings in the source, compared lexicographically) are
  embedded as integer day numbers: lexicographic order on ISO date strings
  agrees with chronological order, and `datetime.timedelta(days=n)` is
  subtraction of `n` on day numbers.  The dashboard's implicit wall clock
  `datetime.datetime.now()` is injected as the field `now_day`.
* `np.mean` is the sum divided by the length; `np.std` is the population
  standard deviation.  The source keeps a sample `x` iff `|x - mean| ≤ 2·std`;
  since both sides are nonnegative this is equivalent to
  `(x - mean)^2 ≤ 4·variance`, which keeps all arithmetic inside `ℚ`.
-/

namespace Flipper

/-- A comparable sale (one `comp` dict in the source).  `sale_date` is the
sale date as an integer day number (see the date convention above). -/
structure Comp where
  price : ℚ
  square_feet : ℚ
  distance : ℚ
  sale_date : ℤ
deriving DecidableEq

/-- The `Property` dataclass of `src/models/property.py`, restricted to the
fields the analysed functions read or write.  The derived attribute `age`
(computed in `__post_init__` as current year minus `year_built` when
`year_built > 0`, else `None`) is carried as an explicit `Option ℤ` field so
that the embedding does not depend on a wall clock. -/
structure Property where
  mls_id : String
  address : String
  city : String
  state : String
  zip_code : String
  list_price : ℚ
  bedrooms : ℤ
  bathrooms : ℚ
  square_feet : ℚ
  year_built : ℤ
  days_on_market : ℚ
  description : String
  latitude : ℚ
  longitude : ℚ
  age : Option ℤ
  opportunity_keywords : List String
  comps : List Comp
  estimated_repair_cost : ℚ
  estimated_arv : ℚ
  estimated_profit : ℚ
  estimated_roi : ℚ
deriving DecidableEq

/-- The deal dict built by `analyze_deal`.  The nested `property_data`
snapshot is flattened to the two fields the scorer reads
(`days_on_market`, `opportunity_keywords`); the `score` key, which the
source only adds later in `score_deals`, is a field initialised to `0`. -/
structure Deal where
  property_id : String
  list_price : ℚ
  arv : ℚ
  repair_costs : ℚ
  closing_costs : ℚ
  holding_costs : ℚ
  total_project_cost : ℚ
  potential_profit : ℚ
  roi : ℚ
  meets_criteria : Bool
  meets_70_percent_rule : Bool
  max_purchase_price : ℚ
  days_on_market : ℚ
  opportunity_keywords : List String
  score : ℚ
deriving DecidableEq

/-- The entries of `settings.REPAIR_COSTS` read by `estimate_repairs`. -/
structure RepairCostsConfig where
  base_sqft_cost : ℚ
  kitchen : ℚ
  bathroom : ℚ
deriving DecidableEq

/-- The setting `settings.REPAIR_COSTS` of `src/config/settings.py`. -/
def REPAIR_COSTS : RepairCostsConfig :=
  { base_sqft_cost := 20, kitchen := 15000, bathroom := 7500 }

/-- The setting `settings.CLOSING_COSTS['purchase_percentage']`. -/
def CLOSING_COSTS_purchase_percentage : ℚ := 3 / 100

/-- The setting `settings.CLOSING_COSTS['seller_closing_percentage']`. -/
def CLOSING_COSTS_seller_closing_percentage : ℚ := 2 / 100

/-- The setting `settings.CLOSING_COSTS['agent_commission']`. -/
def CLOSING_COSTS_agent_commission : ℚ := 6 / 100

/-- The setting `settings.HOLDING_COSTS['mortgage_rate']`. -/
def HOLDING_COSTS_mortgage_rate : ℚ := 7 / 100

/-- The setting `settings.HOLDING_COSTS['property_tax_rate']`. -/
def HOLDING_COSTS_property_tax_rate : ℚ := 15 / 1000

/-- The setting `settings.HOLDING_COSTS['insurance_rate']`. -/
def HOLDING_COSTS_insurance_rate : ℚ := 5 / 1000

/-- The setting `settings.HOLDING_COSTS['monthly_utilities']`. -/
def HOLDING_COSTS_monthly_utilities : ℚ := 200

/-- The setting `settings.AVERAGE_FLIP_MONTHS`. -/
def AVERAGE_FLIP_MONTHS : ℚ := 4

/-- The setting `settings.SCORING['profit_weight']`. -/
def SCORING_profit_weight : ℚ := 40

/-- The setting `settings.SCORING['roi_weight']`. -/
def SCORING_roi_weight : ℚ := 30

/-- The setting `settings.SCORING['repair_cost_weight']`. -/
def SCORING_repair_cost_weight : ℚ := 15

/-- The setting `settings.SCORING['dom_weight']`. -/
def SCORING_dom_weight : ℚ := 10

/-- The setting `settings.SCORING['opportunity_keywords_weight']` (an integer in the
source, used through `min(·, len(...))`). -/
def SCORING_opportunity_keywords_weight : ℕ := 5

/-- The setting `settings.SCORING['meets_70_rule_weight']`. -/
def SCORING_meets_70_rule_weight : ℚ := 5

/-- Python `int(q)` for a rational `q`: truncation toward zero. -/
def pyInt (q : ℚ) : ℤ := q.num.tdiv (q.den : ℤ)

/-- The `high_repair_keywords` list of `estimate_repairs`. -/
def high_repair_keywords : List String :=
  ["fixer", "needs work", "tlc", "handyman", "distressed"]

/-- The `moderate_repair_keywords` list of `estimate_repairs`. -/
def moderate_repair_keywords : List String :=
  ["dated", "original", "renovate", "update"]

/-- The function `estimate_repairs` of `src/analysis/deal_analyzer.py`.  The read of the
global `settings.REPAIR_COSTS` is made explicit as the `rc` parameter.
The Python guard `if property_data.age and property_data.age > 20` tests
truthiness first (`None` and `0` are falsy), embedded as the match plus
`a ≠ 0 ∧ a > 20`. -/
def estimate_repairs (rc : RepairCostsConfig) (p : Property) : ℚ :=
  let age_factor : ℚ :=
    match p.age with
    | none => 1
    | some a => if a > 50 then 3/2 else if a > 30 then 13/10 else if a > 15 then 11/10 else 1
  let condition_factor : ℚ :=
    if high_repair_keywords.any (fun k => p.opportunity_keywords.contains k) then 3/2
    else if moderate_repair_keywords.any (fun k => p.opportunity_keywords.contains k) then 5/4
    else 1
  let repair_estimate := p.square_feet * rc.base_sqft_cost * age_factor * condition_factor
  let repair_estimate :=
    match p.age with
    | none => repair_estimate
    | some a =>
      if a ≠ 0 ∧ a > 20 then
        repair_estimate + rc.kitchen * ((min 1 (pyInt (p.square_feet / 1500)) : ℤ) : ℚ)
          + rc.bathroom * min p.bathrooms 2
      else repair_estimate
  repair_estimate * (11/10)

/-- The dict returned by `calculate_closing_costs`. -/
structure ClosingCosts where
  purchase_closing : ℚ
  agent_commission : ℚ
  seller_closing : ℚ
  total : ℚ
deriving DecidableEq

/-- The function `calculate_closing_costs` of `src/analysis/deal_analyzer.py`. -/
def calculate_closing_costs (purchase_price sale_price : ℚ) : ClosingCosts :=
  let purchase_closing := purchase_price * CLOSING_COSTS_purchase_percentage
  let agent_commission := sale_price * CLOSING_COSTS_agent_commission
  let seller_closing := sale_price * CLOSING_COSTS_seller_closing_percentage
  { purchase_closing := purchase_closing
    agent_commission := agent_commission
    seller_closing := seller_closing
    total := purchase_closing + agent_commission + seller_closing }

/-- The function `calculate_holding_costs` of `src/analysis/deal_analyzer.py`. -/
def calculate_holding_costs (purchase_price months : ℚ) : ℚ :=
  let mortgage := purchase_price * HOLDING_COSTS_mortgage_rate / 12
  let taxes := purchase_price * HOLDING_COSTS_property_tax_rate / 12
  let insurance := purchase_price * HOLDING_COSTS_insurance_rate / 12
  let utilities := HOLDING_COSTS_monthly_utilities
  (mortgage + taxes + insurance + utilities) * months

/-- The function `analyze_deal` of `src/analysis/deal_analyzer.py`.  It mutates the
property (embedded functionally: the updated property is returned alongside
the deal record) and divides by `total_project_cost` with no guard; when that
divisor is `0`, Python raises `ZeroDivisionError`, embedded as `none`.
Note that the first three property writes happen before the division in the
source; the `none` result models the whole call raising. -/
def analyze_deal (p : Property) (arv repair_costs min_roi : ℚ) :
    Option (Property × Deal) :=
  let p1 := { p with estimated_repair_cost := repair_costs, estimated_arv := arv }
  let closing_costs := calculate_closing_costs p.list_price arv
  let holding_costs := calculate_holding_costs p.list_price AVERAGE_FLIP_MONTHS
  let total_project_cost := p.list_price + repair_costs + closing_costs.total + holding_costs
  let potential_profit := arv - total_project_cost
  let p2 := { p1 with estimated_profit := potential_profit }
  if total_project_cost = 0 then none
  else
    let roi := potential_profit / total_project_cost * 100
    let p3 := { p2 with estimated_roi := roi }
    let max_purchase_price := (7/10) * arv - repair_costs
    some (p3,
      { property_id := p.mls_id
        list_price := p.list_price
        arv := arv
        repair_costs := repair_costs
        closing_costs := closing_costs.total
        holding_costs := holding_costs
        total_project_cost := total_project_cost
        potential_profit := potential_profit
        roi := roi
        meets_criteria := decide (roi ≥ min_roi)
        meets_70_percent_rule := decide (p.list_price ≤ max_purchase_price)
        max_purchase_price := max_purchase_price
        days_on_market := p.days_on_market
        opportunity_keywords := p.opportunity_keywords
        score := 0 })

/-- The mean `np.mean` over a list of rationals. -/
def listMean (l : List ℚ) : ℚ := l.sum / l.length

/-- The square of `np.std` (population variance; `np.std` defaults to
`ddof=0`). -/
def listPopVar (l : List ℚ) : ℚ := (l.map (fun x => (x - listMean l)^2)).sum / l.length

/-- The outlier rejection step shared by both ARV estimators: keep the
samples within two population standard deviations of the mean.  The source
condition `abs(psf - mean_psf) <= 2 * std_psf` is embedded in the equivalent
squared form `(psf - mean)^2 ≤ 4 · variance` (both sides of the source
comparison are nonnegative). -/
def outlier_filtered (l : List ℚ) : List ℚ :=
  l.filter (fun x => (x - listMean l)^2 ≤ 4 * listPopVar l)

/-- The `comp_psf` list comprehension shared by both ARV estimators:
price per square foot of each comp whose square footage is positive. -/
def comp_psf (p : Property) : List ℚ :=
  (p.comps.filter (fun c => c.square_feet > 0)).map (fun c => c.price / c.square_feet)

/-- The function `calculate_arv` of `src/analysis/deal_analyzer.py` (the module-level
variant: it always applies the outlier-rejection step). -/
def calculate_arv (p : Property) : ℚ :=
  if p.comps = [] then p.list_price * (3/2)
  else
    let psf := comp_psf p
    if psf = [] then p.list_price * (3/2)
    else
      let filtered_psf := outlier_filtered psf
      let avg_psf := if filtered_psf ≠ [] then listMean filtered_psf else listMean psf
      p.square_feet * avg_psf

/-- The dashboard parameters of `FlipFinderDashboard` in `src/app.py` read by
`filter_comps` and its `calculate_arv` method; `now_day` is the injected
wall clock (`datetime.datetime.now()`) as a day number. -/
structure FlipFinderDashboard where
  min_comp_sqft_pct : ℚ
  max_comp_sqft_pct : ℚ
  use_comps_within_miles : ℚ
  max_comp_age_months : ℤ
  exclude_outliers : Bool
  now_day : ℤ
deriving DecidableEq

/-- The function `FlipFinderDashboard.filter_comps` of `src/app.py`.  The source compares
ISO date strings; day numbers compare identically (see the date convention). -/
def filter_comps (s : FlipFinderDashboard) (p : Property) : List Comp :=
  if p.comps = [] then []
  else
    let min_sqft := p.square_feet * s.min_comp_sqft_pct
    let max_sqft := p.square_feet * s.max_comp_sqft_pct
    let max_distance := s.use_comps_within_miles
    let cutoff_date := s.now_day - s.max_comp_age_months * 30
    p.comps.filter (fun c =>
      decide (c.square_feet ≥ min_sqft) && decide (c.square_feet ≤ max_sqft) &&
      decide (c.distance ≤ max_distance) && decide (c.sale_date ≥ cutoff_date))

/-- The function `FlipFinderDashboard.calculate_arv` of `src/app.py` (the dashboard
variant: outlier rejection only when `self.exclude_outliers` is set and there
are more than 5 price-per-sqft samples). -/
def dashboard_calculate_arv (s : FlipFinderDashboard) (p : Property) : ℚ :=
  if p.comps = [] then p.list_price * (3/2)
  else
    let psf := comp_psf p
    if psf = [] then p.list_price * (3/2)
    else
      let avg_psf :=
        if s.exclude_outliers ∧ psf.length > 5 then
          let filtered_psf := outlier_filtered psf
          if filtered_psf ≠ [] then listMean filtered_psf else listMean psf
        else listMean psf
      p.square_feet * avg_psf

/-- Python `max(l)` over a nonempty list, `0` when the list is empty
(mirroring the source's `max(values) if values else 0`). -/
def listMax (l : List ℚ) : ℚ :=
  match l with
  | [] => 0
  | x :: xs => xs.foldl max x

/-- Python `min(l)` over a nonempty list, `0` when the list is empty. -/
def listMin (l : List ℚ) : ℚ :=
  match l with
  | [] => 0
  | x :: xs => xs.foldl min x

/-- The per-deal score computation inside the loop of `score_deals`
(`src/analysis/property_scorer.py`), with the batch statistics the source
precomputes passed in. -/
def score_one (min_profit profit_range min_roi_v roi_range min_repair repair_range
    min_dom dom_range : ℚ) (d : Deal) : ℚ :=
  let s1 := if profit_range > 0 then
      SCORING_profit_weight * (d.potential_profit - min_profit) / profit_range else 0
  let s2 := if roi_range > 0 then
      SCORING_roi_weight * (d.roi - min_roi_v) / roi_range else 0
  let s3 := if repair_range > 0 then
      SCORING_repair_cost_weight * (1 - (d.repair_costs - min_repair) / repair_range) else 0
  let s4 := if dom_range > 0 then
      SCORING_dom_weight * (d.days_on_market - min_dom) / dom_range else 0
  let s5 : ℚ := if d.opportunity_keywords.isEmpty then 0
    else ((min SCORING_opportunity_keywords_weight d.opportunity_keywords.length : ℕ) : ℚ)
  let s6 := if d.meets_70_percent_rule then SCORING_meets_70_rule_weight else 0
  s1 + s2 + s3 + s4 + s5 + s6

/-- The function `score_deals` of `src/analysis/property_scorer.py`.  Python's
`list.sort(key=..., reverse=True)` is a stable descending sort, embedded as
`List.mergeSort` with the "score at least" comparison. -/
def score_deals (deals : List Deal) : List Deal :=
  if deals = [] then []
  else
    let profit_values := deals.map (fun d => d.potential_profit)
    let roi_values := deals.map (fun d => d.roi)
    let repair_values := deals.map (fun d => d.repair_costs)
    let dom_values := deals.map (fun d => d.days_on_market)
    let min_profit := listMin profit_values
    let profit_range := listMax profit_values - min_profit
    let min_roi_v := listMin roi_values
    let roi_range := listMax roi_values - min_roi_v
    let min_repair := listMin repair_values
    let repair_range := listMax repair_values - min_repair
    let min_dom := listMin dom_values
    let dom_range := listMax dom_values - min_dom
    let scored_deals := deals.map (fun d =>
      { d with score := (score_one min_profit profit_range min_roi_v roi_range
          min_repair repair_range min_dom dom_range d) })
    scored_deals.mergeSort (fun a b => decide (b.score ≤ a.score))

/-- Spec-side transcription of the claim's scoring formula (claim C6), for
comparison with `score_one`/`score_deals`: min–max normalised contributions
that are exactly `0` when a metric's batch max equals its min, the inverted
repair contribution, the capped keyword bonus, and the 70%-rule bonus. -/
def claim_score (deals : List Deal) (d : Deal) : ℚ :=
  let profit_values := deals.map (fun d => d.potential_profit)
  let roi_values := deals.map (fun d => d.roi)
  let repair_values := deals.map (fun d => d.repair_costs)
  let dom_values := deals.map (fun d => d.days_on_market)
  (if listMax profit_values = listMin profit_values then 0
    else SCORING_profit_weight * (d.potential_profit - listMin profit_values) /
      (listMax profit_values - listMin profit_values)) +
  (if listMax roi_values = listMin roi_values then 0
    else SCORING_roi_weight * (d.roi - listMin roi_values) /
      (listMax roi_values - listMin roi_values)) +
  (if listMax repair_values = listMin repair_values then 0
    else SCORING_repair_cost_weight * (1 - (d.repair_costs - listMin repair_values) /
      (listMax repair_values - listMin repair_values))) +
  (if listMax dom_values = listMin dom_values then 0
    else SCORING_dom_weight * (d.days_on_market - listMin dom_values) /
      (listMax dom_values - listMin dom_values)) +
  ((min SCORING_opportunity_keywords_weight d.opportunity_keywords.length : ℕ) : ℚ) +
  (if d.meets_70_percent_rule then SCORING_meets_70_rule_weight else 0)

/-- Python's substring test `ns in hay` on lists of characters. -/
def subList (ns : List Char) : List Char → Bool
  | [] => ns.isEmpty
  | c :: rest => ns.isPrefixOf (c :: rest) || subList ns rest

/-- Python's `needle in hay` on strings. -/
def inStr (needle hay : String) : Bool := subList needle.data hay.data

/-- Python's `str.lower()` (the descriptions are ASCII). -/
def lowerStr (s : String) : String := String.mk (s.data.map Char.toLower)

/-- The `extensive_indicators` list of `estimate_renovation_level`
(`src/analysis/repair_estimator.py`). -/
def extensive_indicators : List String :=
  ["fixer", "needs work", "tlc", "handyman special", "distressed",
   "as-is", "potential", "opportunity", "needs renovation"]

/-- The `moderate_indicators` list of `estimate_renovation_level`. -/
def moderate_indicators : List String :=
  ["dated", "original", "some updating", "could use", "older"]

/-- The age-based baseline renovation level of `estimate_renovation_level`. -/
def base_level (p : Property) : String :=
  match p.age with
  | none => "moderate"
  | some a =>
    if a > 50 then "extensive" else if a > 30 then "moderate"
    else if a > 15 then "cosmetic" else "cosmetic"

/-- The count of serious specific issues (`roof`, `hvac`, `foundation`,
`electrical`, `plumbing`) detected by substring scans on the lowercased
description in `estimate_renovation_level`. -/
def serious_issues (p : Property) : ℕ :=
  let description := lowerStr p.description
  let has_roof_issues := ["roof", "leak"].any (fun k => inStr k description)
  let has_hvac_issues := ["hvac", "heat", "cooling"].any (fun k => inStr k description)
  let has_foundation_issues := ["foundation", "structural"].any (fun k => inStr k description)
  let has_electrical_issues := ["electrical", "wiring"].any (fun k => inStr k description)
  let has_plumbing_issues := ["plumbing", "pipes"].any (fun k => inStr k description)
  (if has_roof_issues then 1 else 0) + (if has_hvac_issues then 1 else 0) +
  (if has_foundation_issues then 1 else 0) + (if has_electrical_issues then 1 else 0) +
  (if has_plumbing_issues then 1 else 0)

/-- The count of extensive indicators matched against the opportunity
keywords (substring of any keyword) or the lowercased description. -/
def extensive_count (p : Property) : ℕ :=
  (extensive_indicators.filter (fun k =>
    p.opportunity_keywords.any (fun kw => inStr k kw) || inStr k (lowerStr p.description))).length

/-- The count of moderate indicators, matched the same way. -/
def moderate_count (p : Property) : ℕ :=
  (moderate_indicators.filter (fun k =>
    p.opportunity_keywords.any (fun kw => inStr k kw) || inStr k (lowerStr p.description))).length

/-- The function `estimate_renovation_level` of `src/analysis/repair_estimator.py`. -/
def estimate_renovation_level (p : Property) : String :=
  if extensive_count p ≥ 2 ∨ serious_issues p ≥ 2 then "extensive"
  else if extensive_count p ≥ 1 ∨ moderate_count p ≥ 2 ∨ serious_issues p ≥ 1 then "moderate"
  else if moderate_count p ≥ 1 then
    (if base_level p = "cosmetic" then "moderate" else base_level p)
  else base_level p

/-- A fully populated baseline property used to build concrete inputs. -/
def baseProperty : Property :=
  { mls_id := "P0", address := "1 Main St", city := "Waldorf", state := "MD",
    zip_code := "20601", list_price := 100000, bedrooms := 3, bathrooms := 2,
    square_feet := 1200, year_built := 1980, days_on_market := 10,
    description := "", latitude := 0, longitude := 0, age := some 45,
    opportunity_keywords := [], comps := [], estimated_repair_cost := 0,
    estimated_arv := 0, estimated_profit := 0, estimated_roi := 0 }

/-- A zeroed baseline deal record used to build concrete inputs. -/
def baseDeal : Deal :=
  { property_id := "P0", list_price := 0, arv := 0, repair_costs := 0,
    closing_costs := 0, holding_costs := 0, total_project_cost := 0,
    potential_profit := 0, roi := 0, meets_criteria := false,
    meets_70_percent_rule := false, max_purchase_price := 0,
    days_on_market := 0, opportunity_keywords := [], score := 0 }

/-- Concrete input for the C4 witness: age 60, 2000 sqft, 1 bathroom,
no repair keywords. -/
def pRepair4 : Property :=
  { baseProperty with age := some 60, square_feet := 2000, bathrooms := 1 }

/-- Concrete input for claim C5: age 60, 1000 sqft, 2 bathrooms,
no repair keywords. -/
def pRepair5 : Property :=
  { baseProperty with age := some 60, square_feet := 1000, bathrooms := 2 }

/-- Concrete input for the C1/C10 witnesses: list price 200000. -/
def pDealEx : Property := { baseProperty with mls_id := "MLS1", list_price := 200000 }

/-- The property state after `analyze_deal pDealEx 320000 30000 20`:
total cost `200000 + 30000 + 31600 + 6800 = 268400`, profit `51600`,
ROI `51600/268400·100 = 12900/671`. -/
def pPostEx : Property :=
  { pDealEx with
    estimated_repair_cost := 30000, estimated_arv := 320000,
    estimated_profit := 51600, estimated_roi := 12900/671 }

/-- The deal record produced by `analyze_deal pDealEx 320000 30000 20`. -/
def dealPostEx : Deal :=
  { property_id := "MLS1", list_price := 200000, arv := 320000,
    repair_costs := 30000, closing_costs := 31600, holding_costs := 6800,
    total_project_cost := 268400, potential_profit := 51600, roi := 12900/671,
    meets_criteria := false, meets_70_percent_rule := false,
    max_purchase_price := 194000, days_on_market := 10,
    opportunity_keywords := [], score := 0 }

/-- Concrete input for claim C2: list price 0.  With `arv = 0` and
`repair_costs = -800` the total project cost is
`0 + (-800) + 0 + (0 + 200)·4 = 0`. -/
def pZeroEx : Property := { baseProperty with list_price := 0 }

/-- Concrete input for the C9 witness: no comps, list price 300000. -/
def pArvEmptyEx : Property := { baseProperty with list_price := 300000 }

/-- Concrete dashboard state for the C3 witness. -/
def sC3 : FlipFinderDashboard :=
  { min_comp_sqft_pct := 8/10, max_comp_sqft_pct := 12/10,
    use_comps_within_miles := 1, max_comp_age_months := 6,
    exclude_outliers := true, now_day := 20000 }

/-- Concrete property for the C3 witness: one comp at 200 $/sqft. -/
def pC3 : Property :=
  { baseProperty with
    square_feet := 1100,
    comps := [{ price := 200000, square_feet := 1000, distance := 1/2, sale_date := 19990 }] }

/-- Concrete comp for the C7 witness: distance 2.0 miles. -/
def cC7 : Comp := { price := 250000, square_feet := 1200, distance := 2, sale_date := 19990 }

/-- Concrete dashboard state for the C7 witness: max distance 1.0 mile. -/
def sC7 : FlipFinderDashboard :=
  { min_comp_sqft_pct := 8/10, max_comp_sqft_pct := 12/10,
    use_comps_within_miles := 1, max_comp_age_months := 6,
    exclude_outliers := true, now_day := 20000 }

/-- Concrete property for the C7 witness. -/
def pC7 : Property := { baseProperty with comps := [cC7] }

/-- Concrete property for the C8 witness: description naming foundation and
electrical issues, no opportunity keywords. -/
def pC8 : Property :=
  { baseProperty with description := "foundation cracks and electrical problems" }

/-- Concrete deal for the C6 witness: no keywords, fails the 70% rule. -/
def dealW1 : Deal := { baseDeal with property_id := "W1" }

/-- Concrete deal for the C6 witness: three keywords, meets the 70% rule;
shares every normalised metric with `dealW1`. -/
def dealW2 : Deal :=
  { baseDeal with
    property_id := "W2",
    opportunity_keywords := ["fixer", "as-is", "motivated"],
    meets_70_percent_rule := true }

/-! ## Theorems -/

/-- Truncation toward zero agrees with the floor on nonnegative rationals. -/
lemma pyInt_eq_floor (q : ℚ) (h : 0 ≤ q) : pyInt q = ⌊q⌋ := by
  have hnum : 0 ≤ q.num := Rat.num_nonneg.mpr h
  have hden : (0:ℤ) ≤ (q.den : ℤ) := Int.ofNat_nonneg q.den
  rw [pyInt, Int.tdiv_eq_ediv hnum (by omega)]
  conv_rhs => rw [← Rat.num_div_den q]
  rw [Rat.floor_intCast_div_natCast]

/-- The kitchen-cost factor `min(1, int(sqft/1500))` is the step function
of the claim on nonnegative arguments. -/
lemma min_one_pyInt_step (q : ℚ) (h : 0 ≤ q) :
    ((min 1 (pyInt q) : ℤ) : ℚ) = if 1 ≤ q then 1 else 0 := by
  rw [pyInt_eq_floor q h]
  by_cases h1 : 1 ≤ q
  · rw [if_pos h1, min_eq_left (Int.le_floor.mpr (by exact_mod_cast h1))]
    norm_num
  · rw [if_neg h1, Int.floor_eq_zero_iff.mpr ⟨h, lt_of_not_le h1⟩]
    norm_num

/-- The coarse repair estimator, rewritten in the claim's form (shared by the
C4 and C5 theorems). -/
lemma estimate_repairs_eq (rc : RepairCostsConfig) (p : Property)
    (h : 0 ≤ p.square_feet) :
    estimate_repairs rc p =
      (p.square_feet * rc.base_sqft_cost *
        (match p.age with
          | none => (1:ℚ)
          | some a => if a > 50 then 3/2 else if a > 30 then 13/10
              else if a > 15 then 11/10 else 1) *
        (if ∃ k ∈ high_repair_keywords, k ∈ p.opportunity_keywords then (3/2:ℚ)
          else if ∃ k ∈ moderate_repair_keywords, k ∈ p.opportunity_keywords then 5/4 else 1) +
        (match p.age with
          | none => (0:ℚ)
          | some a => if a > 20 then
              (if 1 ≤ p.square_feet / 1500 then rc.kitchen else 0) +
                rc.bathroom * min p.bathrooms 2
            else 0)) * (11/10) := by
  have hcontains : ∀ (l : List String),
      (l.any fun k => p.opportunity_keywords.contains k) = true ↔
        ∃ k ∈ l, k ∈ p.opportunity_keywords := by
    intro l; simp
  simp only [estimate_repairs]
  rw [if_congr (hcontains high_repair_keywords) rfl
      (if_congr (hcontains moderate_repair_keywords) rfl rfl)]
  cases hA : p.age with
  | none => dsimp only; ring
  | some a =>
    dsimp only
    by_cases h20 : a > 20
    · rw [if_pos (show a ≠ 0 ∧ a > 20 from ⟨by omega, h20⟩), if_pos h20,
        min_one_pyInt_step (p.square_feet / 1500) (by positivity)]
      by_cases hk : 1 ≤ p.square_feet / 1500
      · rw [if_pos hk, if_pos hk]; ring
      · rw [if_neg hk, if_neg hk]; ring
    · rw [if_neg (show ¬(a ≠ 0 ∧ a > 20) from fun hc => h20 hc.2), if_neg h20]
      ring

/-- Claim C4: the coarse repair estimator computes
`sqft × base_cost × age_factor × condition_factor`, with the age factor
1.5/1.3/1.1/1 at the thresholds 50/30/15 (1 when the age is unknown), the
condition factor 1.5 on a high-repair keyword, else 1.25 on a moderate
keyword, else 1 (high tier first, at most one factor); when the age exceeds
20 it adds the kitchen cost once exactly when `sqft/1500 ≥ 1` (else zero)
plus the bathroom cost times `min(bathrooms, 2)`; the whole total is then
multiplied by 1.1. -/
theorem claim_C4_repair_estimator (rc : RepairCostsConfig) (p : Property)
    (h : 0 ≤ p.square_feet) :
    estimate_repairs rc p =
      (p.square_feet * rc.base_sqft_cost *
        (match p.age with
          | none => (1:ℚ)
          | some a => if a > 50 then 3/2 else if a > 30 then 13/10
              else if a > 15 then 11/10 else 1) *
        (if ∃ k ∈ high_repair_keywords, k ∈ p.opportunity_keywords then (3/2:ℚ)
          else if ∃ k ∈ moderate_repair_keywords, k ∈ p.opportunity_keywords then 5/4 else 1) +
        (match p.age with
          | none => (0:ℚ)
          | some a => if a > 20 then
              (if 1 ≤ p.square_feet / 1500 then rc.kitchen else 0) +
                rc.bathroom * min p.bathrooms 2
            else 0)) * (11/10) :=
  estimate_repairs_eq rc p h

/-- Witness for C4 at a concrete input: age 60, 2000 sqft, 1 bathroom,
no keywords, with the configured costs:
`(2000·20·1.5 + 15000 + 7500)·1.1 = 90750`. -/
theorem claim_C4_witness : estimate_repairs REPAIR_COSTS pRepair4 = 90750 := by
  refine (claim_C4_repair_estimator REPAIR_COSTS pRepair4 (by norm_num [pRepair4, baseProperty])).trans ?_
  norm_num [pRepair4, baseProperty, REPAIR_COSTS, high_repair_keywords,
    moderate_repair_keywords, min_def]

/-- Counterexample to C5 at its own concrete input (age 60, 1000 sqft,
2 bathrooms, base cost 20, no keywords): the claim predicts the kitchen cost
added once, i.e. `(30000 + 15000 + 7500·min(2,2))·1.1 = 66000`, but the
source computes `min(1, int(1000/1500)) = 0` kitchen additions, giving
`(30000 + 7500·2)·1.1 = 49500`. -/
theorem claim_C5_counterexample :
    estimate_repairs REPAIR_COSTS pRepair5 = 49500 ∧
    (1000 * 20 * (3/2) + (15000 + 7500 * min (2:ℚ) 2)) * (11/10) = 66000 ∧
    (49500 : ℚ) ≠ 66000 := by
  refine ⟨?_, by norm_num [min_def], by norm_num⟩
  refine (estimate_repairs_eq REPAIR_COSTS pRepair5 (by norm_num [pRepair5, baseProperty])).trans ?_
  norm_num [pRepair5, baseProperty, REPAIR_COSTS, high_repair_keywords,
    moderate_repair_keywords, min_def]

/-- Claim C5 as amended: at age 60, 1000 sqft, base cost 20 and no repair
keywords, the age factor is 1.5 and the condition factor 1.0 giving base
30000; since `1000/1500 < 1` the kitchen cost is added zero times; the
bathroom cost times `min(bathrooms, 2)` is added; the total is multiplied
by 1.1. -/
theorem claim_C5_amended (b : ℚ) :
    estimate_repairs REPAIR_COSTS { pRepair5 with bathrooms := b } =
      (1000 * 20 * (3/2) + 7500 * min b 2) * (11/10) := by
  refine (estimate_repairs_eq REPAIR_COSTS _ (by norm_num [pRepair5, baseProperty])).trans ?_
  norm_num [pRepair5, baseProperty, REPAIR_COSTS, high_repair_keywords,
    moderate_repair_keywords]

/-- Claim C1: every deal produced by `analyze_deal` satisfies the accounting
identities `total_project_cost = list_price + repair_costs + closing_costs +
holding_costs`, `potential_profit = arv − total_project_cost`, and
`roi = potential_profit / total_project_cost × 100` (exactly, over ℚ). -/
theorem claim_C1_deal_identities (p : Property) (arv repair_costs min_roi : ℚ)
    (pr : Property) (d : Deal)
    (h : analyze_deal p arv repair_costs min_roi = some (pr, d)) :
    d.total_project_cost = d.list_price + d.repair_costs + d.closing_costs + d.holding_costs ∧
    d.potential_profit = d.arv - d.total_project_cost ∧
    d.roi = d.potential_profit / d.total_project_cost * 100 := by
  simp only [analyze_deal] at h
  split at h
  · exact absurd h (by simp)
  · simp only [Option.some.injEq, Prod.mk.injEq] at h
    obtain ⟨-, hd⟩ := h
    subst hd
    exact ⟨rfl, rfl, rfl⟩

/-- The concrete run behind the C1/C10 witnesses:
`analyze_deal pDealEx 320000 30000 20` succeeds with total cost 268400,
profit 51600, ROI 12900/671 (≈19.23, failing both criteria). -/
lemma analyze_deal_pDealEx :
    analyze_deal pDealEx 320000 30000 20 = some (pPostEx, dealPostEx) := by
  simp only [analyze_deal, calculate_closing_costs, calculate_holding_costs,
    CLOSING_COSTS_purchase_percentage, CLOSING_COSTS_agent_commission,
    CLOSING_COSTS_seller_closing_percentage, HOLDING_COSTS_mortgage_rate,
    HOLDING_COSTS_property_tax_rate, HOLDING_COSTS_insurance_rate,
    HOLDING_COSTS_monthly_utilities, AVERAGE_FLIP_MONTHS,
    pDealEx, pPostEx, dealPostEx, baseProperty]
  norm_num [Property.mk.injEq, Deal.mk.injEq, decide_eq_false_iff_not]

/-- Witness for C1: the identities at the concrete deal produced from
`pDealEx` with ARV 320000 and repair costs 30000. -/
theorem claim_C1_witness :
    dealPostEx.total_project_cost = dealPostEx.list_price + dealPostEx.repair_costs +
      dealPostEx.closing_costs + dealPostEx.holding_costs ∧
    dealPostEx.potential_profit = dealPostEx.arv - dealPostEx.total_project_cost ∧
    dealPostEx.roi = dealPostEx.potential_profit / dealPostEx.total_project_cost * 100 :=
  claim_C1_deal_identities pDealEx 320000 30000 20 pPostEx dealPostEx analyze_deal_pDealEx

/-- Claim C2 (code bug): `analyze_deal` does not guard the ROI division.
At a property with list price 0, `arv = 0`, `repair_costs = -800` the total
project cost is exactly 0 and the source's `/` raises `ZeroDivisionError`
(embedded as `none`) instead of reporting a configuration error. -/
theorem claim_C2_unguarded_division : analyze_deal pZeroEx 0 (-800) 20 = none := by
  simp only [analyze_deal, calculate_closing_costs, calculate_holding_costs,
    CLOSING_COSTS_purchase_percentage, CLOSING_COSTS_agent_commission,
    CLOSING_COSTS_seller_closing_percentage, HOLDING_COSTS_mortgage_rate,
    HOLDING_COSTS_property_tax_rate, HOLDING_COSTS_insurance_rate,
    HOLDING_COSTS_monthly_utilities, AVERAGE_FLIP_MONTHS, pZeroEx, baseProperty]
  norm_num

/-- Claim C10: whenever `analyze_deal` completes, it writes exactly the four
analysis fields of the property — `estimated_repair_cost` (the given repair
costs), `estimated_arv` (the given ARV), `estimated_profit` (the deal's
potential profit) and `estimated_roi` (the deal's ROI) — and leaves every
other property field unchanged. -/
theorem claim_C10_frame (p : Property) (arv repair_costs min_roi : ℚ)
    (pr : Property) (d : Deal)
    (h : analyze_deal p arv repair_costs min_roi = some (pr, d)) :
    pr.estimated_repair_cost = repair_costs ∧ pr.estimated_arv = arv ∧
    pr.estimated_profit = d.potential_profit ∧ pr.estimated_roi = d.roi ∧
    pr.mls_id = p.mls_id ∧ pr.address = p.address ∧ pr.city = p.city ∧
    pr.state = p.state ∧ pr.zip_code = p.zip_code ∧ pr.list_price = p.list_price ∧
    pr.bedrooms = p.bedrooms ∧ pr.bathrooms = p.bathrooms ∧
    pr.square_feet = p.square_feet ∧ pr.year_built = p.year_built ∧
    pr.days_on_market = p.days_on_market ∧ pr.description = p.description ∧
    pr.latitude = p.latitude ∧ pr.longitude = p.longitude ∧ pr.age = p.age ∧
    pr.opportunity_keywords = p.opportunity_keywords ∧ pr.comps = p.comps := by
  simp only [analyze_deal] at h
  split at h
  · exact absurd h (by simp)
  · simp only [Option.some.injEq, Prod.mk.injEq] at h
    obtain ⟨hpr, hd⟩ := h
    subst hd
    subst hpr
    repeat' constructor

/-- Witness for C10 at the concrete run from `pDealEx`. -/
theorem claim_C10_witness :
    pPostEx.estimated_repair_cost = 30000 ∧ pPostEx.estimated_arv = 320000 ∧
    pPostEx.estimated_profit = dealPostEx.potential_profit ∧
    pPostEx.estimated_roi = dealPostEx.roi ∧
    pPostEx.mls_id = pDealEx.mls_id ∧ pPostEx.address = pDealEx.address ∧
    pPostEx.city = pDealEx.city ∧ pPostEx.state = pDealEx.state ∧
    pPostEx.zip_code = pDealEx.zip_code ∧ pPostEx.list_price = pDealEx.list_price ∧
    pPostEx.bedrooms = pDealEx.bedrooms ∧ pPostEx.bathrooms = pDealEx.bathrooms ∧
    pPostEx.square_feet = pDealEx.square_feet ∧ pPostEx.year_built = pDealEx.year_built ∧
    pPostEx.days_on_market = pDealEx.days_on_market ∧
    pPostEx.description = pDealEx.description ∧ pPostEx.latitude = pDealEx.latitude ∧
    pPostEx.longitude = pDealEx.longitude ∧ pPostEx.age = pDealEx.age ∧
    pPostEx.opportunity_keywords = pDealEx.opportunity_keywords ∧
    pPostEx.comps = pDealEx.comps :=
  claim_C10_frame pDealEx 320000 30000 20 pPostEx dealPostEx analyze_deal_pDealEx

/-- Claim C9: `calculate_arv` never raises and falls back to
`list_price × 1.5` whenever the comp list is empty or no comp has positive
square footage; in particular an empty comp list with list price 300000
yields 450000. -/
theorem claim_C9_arv_fallback :
    (∀ p : Property, p.comps = [] → calculate_arv p = p.list_price * (3/2)) ∧
    (∀ p : Property, (∀ c ∈ p.comps, c.square_feet ≤ 0) →
      calculate_arv p = p.list_price * (3/2)) ∧
    (∀ p : Property, p.comps = [] → p.list_price = 300000 → calculate_arv p = 450000) := by
  have h1 : ∀ p : Property, p.comps = [] → calculate_arv p = p.list_price * (3/2) := by
    intro p hc
    simp only [calculate_arv]
    rw [if_pos hc]
  refine ⟨h1, ?_, ?_⟩
  · intro p hc
    by_cases he : p.comps = []
    · exact h1 p he
    · have hpsf : comp_psf p = [] := by
        simp only [comp_psf]
        rw [List.filter_eq_nil_iff.mpr (fun c hcm => by
          simpa using not_lt.mpr (hc c hcm))]
        rfl
      simp only [calculate_arv]
      rw [if_neg he, if_pos hpsf]
  · intro p hc hl
    rw [h1 p hc, hl]
    norm_num

/-- Witness for C9: the empty-comps fallback at list price 300000. -/
theorem claim_C9_witness : calculate_arv pArvEmptyEx = 450000 :=
  claim_C9_arv_fallback.2.2 pArvEmptyEx rfl rfl

/-- Claim C7: the comp filter keeps exactly the comps satisfying all four
constraints (square footage within the percentage band of the subject,
distance at most the maximum, sale date no older than `now − 30·max_months`
days); in particular a comp at distance 2.0 is excluded whenever the
maximum distance is 1.0. -/
theorem claim_C7_comp_filter :
    (∀ (s : FlipFinderDashboard) (p : Property) (c : Comp),
      c ∈ filter_comps s p ↔
        c ∈ p.comps ∧ p.square_feet * s.min_comp_sqft_pct ≤ c.square_feet ∧
        c.square_feet ≤ p.square_feet * s.max_comp_sqft_pct ∧
        c.distance ≤ s.use_comps_within_miles ∧
        s.now_day - s.max_comp_age_months * 30 ≤ c.sale_date) ∧
    (∀ (s : FlipFinderDashboard) (p : Property) (c : Comp),
      c.distance = 2 → s.use_comps_within_miles = 1 → c ∉ filter_comps s p) := by
  have main : ∀ (s : FlipFinderDashboard) (p : Property) (c : Comp),
      c ∈ filter_comps s p ↔
        c ∈ p.comps ∧ p.square_feet * s.min_comp_sqft_pct ≤ c.square_feet ∧
        c.square_feet ≤ p.square_feet * s.max_comp_sqft_pct ∧
        c.distance ≤ s.use_comps_within_miles ∧
        s.now_day - s.max_comp_age_months * 30 ≤ c.sale_date := by
    intro s p c
    simp only [filter_comps]
    by_cases hc : p.comps = []
    · rw [if_pos hc, hc]
      simp
    · rw [if_neg hc]
      simp only [List.mem_filter, Bool.and_eq_true, decide_eq_true_eq, ge_iff_le]
      tauto
  refine ⟨main, ?_⟩
  intro s p c hd hm hmem
  have h := ((main s p c).mp hmem).2.2.2.1
  rw [hd, hm] at h
  norm_num at h

/-- Witness for C7: the concrete comp at distance 2.0 is excluded under the
1.0-mile maximum. -/
theorem claim_C7_witness : cC7 ∉ filter_comps sC7 pC7 :=
  claim_C7_comp_filter.2 sC7 pC7 cC7 rfl rfl

/-- Claim C3: on any nonempty price-per-sqft sample list, the dashboard ARV
estimator applies the 2-standard-deviation (population) outlier rejection
exactly when the exclude-outliers flag is set and there are more than 5
samples — falling back to the unfiltered mean if rejection empties the
set — and otherwise averages all samples unfiltered; the result is the
retained average times the subject's square footage. -/
theorem claim_C3_dashboard_arv (s : FlipFinderDashboard) (p : Property)
    (h : comp_psf p ≠ []) :
    dashboard_calculate_arv s p =
      p.square_feet *
        (if s.exclude_outliers ∧ (comp_psf p).length > 5 then
          (if outlier_filtered (comp_psf p) ≠ [] then listMean (outlier_filtered (comp_psf p))
            else listMean (comp_psf p))
         else listMean (comp_psf p)) := by
  have hcomps : p.comps ≠ [] := by
    intro hc
    exact h (by simp [comp_psf, hc])
  simp only [dashboard_calculate_arv]
  rw [if_neg hcomps, if_neg h]

/-- Witness for C3 at a concrete dashboard state and a one-comp property:
a single 200 $/sqft sample (not more than 5) means no rejection, giving
`1100 × mean [200]`. -/
theorem claim_C3_witness :
    dashboard_calculate_arv sC3 pC3 =
      pC3.square_feet *
        (if sC3.exclude_outliers ∧ (comp_psf pC3).length > 5 then
          (if outlier_filtered (comp_psf pC3) ≠ [] then listMean (outlier_filtered (comp_psf pC3))
            else listMean (comp_psf pC3))
         else listMean (comp_psf pC3)) :=
  claim_C3_dashboard_arv sC3 pC3 (by norm_num [comp_psf, pC3, baseProperty, List.filter])

/-- Claim C8: the renovation-level classifier evaluates its decision table
in priority order with the first match winning — "extensive" when
`extensive_count ≥ 2` or `serious_issues ≥ 2`; else "moderate" when
`extensive_count ≥ 1`, `moderate_count ≥ 2` or `serious_issues ≥ 1`; else,
when `moderate_count ≥ 1`, "moderate" if the age baseline is "cosmetic" and
the baseline otherwise; else the age baseline.  In particular a description
containing both "foundation" and "electrical" is classified "extensive"
regardless of the age baseline. -/
theorem claim_C8_renovation_level :
    (∀ p : Property, estimate_renovation_level p =
      (if extensive_count p ≥ 2 ∨ serious_issues p ≥ 2 then "extensive"
       else if extensive_count p ≥ 1 ∨ moderate_count p ≥ 2 ∨ serious_issues p ≥ 1 then
         "moderate"
       else if moderate_count p ≥ 1 then
         (if base_level p = "cosmetic" then "moderate" else base_level p)
       else base_level p)) ∧
    (∀ p : Property, inStr "foundation" (lowerStr p.description) = true →
      inStr "electrical" (lowerStr p.description) = true →
      estimate_renovation_level p = "extensive") := by
  refine ⟨fun p => rfl, ?_⟩
  intro p h1 h2
  have hs : serious_issues p ≥ 2 := by
    simp only [serious_issues, List.any_cons, List.any_nil, h1, h2,
      Bool.or_false, Bool.true_or, if_true]
    omega
  simp only [estimate_renovation_level]
  rw [if_pos (Or.inr hs)]

/-- Witness for C8: the concrete description mentioning foundation and
electrical issues classifies as "extensive" even though the age baseline for
age 45 is "moderate". -/
theorem claim_C8_witness : estimate_renovation_level pC8 = "extensive" :=
  claim_C8_renovation_level.2 pC8 (by decide) (by decide)

/-- A left fold of `max` dominates its initial value. -/
lemma le_foldl_max (x : ℚ) (l : List ℚ) : x ≤ l.foldl max x := by
  induction l generalizing x with
  | nil => exact le_refl x
  | cons y ys ih => exact le_trans (le_max_left x y) (ih (max x y))

/-- A left fold of `min` is dominated by its initial value. -/
lemma foldl_min_le (x : ℚ) (l : List ℚ) : l.foldl min x ≤ x := by
  induction l generalizing x with
  | nil => exact le_refl x
  | cons y ys ih => exact le_trans (ih (min x y)) (min_le_left x y)

/-- The batch minimum never exceeds the batch maximum. -/
lemma listMin_le_listMax (l : List ℚ) : listMin l ≤ listMax l := by
  cases l with
  | nil => exact le_refl 0
  | cons x xs => exact le_trans (foldl_min_le x xs) (le_foldl_max x xs)

/-- A `max` fold over constants is that constant. -/
lemma foldl_max_of_const (x c : ℚ) (l : List ℚ) (hx : x = c) (h : ∀ y ∈ l, y = c) :
    l.foldl max x = c := by
  induction l generalizing x with
  | nil => exact hx
  | cons y ys ih =>
    refine ih (max x y) ?_ (fun z hz => h z (List.mem_cons_of_mem _ hz))
    rw [hx, h y (List.mem_cons_self _ _)]
    exact max_self c

/-- A `min` fold over constants is that constant. -/
lemma foldl_min_of_const (x c : ℚ) (l : List ℚ) (hx : x = c) (h : ∀ y ∈ l, y = c) :
    l.foldl min x = c := by
  induction l generalizing x with
  | nil => exact hx
  | cons y ys ih =>
    refine ih (min x y) ?_ (fun z hz => h z (List.mem_cons_of_mem _ hz))
    rw [hx, h y (List.mem_cons_self _ _)]
    exact min_self c

/-- On a constant list the batch max and min coincide. -/
lemma listMax_eq_listMin_of_const (l : List ℚ) (c : ℚ) (h : ∀ x ∈ l, x = c) :
    listMax l = listMin l := by
  cases l with
  | nil => rfl
  | cons x xs =>
    show xs.foldl max x = xs.foldl min x
    rw [foldl_max_of_const x c xs (h x (List.mem_cons_self _ _))
        (fun y hy => h y (List.mem_cons_of_mem _ hy)),
      foldl_min_of_const x c xs (h x (List.mem_cons_self _ _))
        (fun y hy => h y (List.mem_cons_of_mem _ hy))]

/-- The source's range guard `range > 0` agrees with the claim's
`max = min` guard once `min ≤ max` is known (any payload). -/
lemma ite_range (mn mx a : ℚ) (hle : mn ≤ mx) :
    (if mx - mn > 0 then a else 0) = (if mx = mn then 0 else a) := by
  by_cases he : mx = mn
  · rw [if_pos he, if_neg (by rw [he]; simp)]
  · rw [if_neg he, if_pos (by cases lt_or_eq_of_le hle with
      | inl hlt => linarith
      | inr heq => exact absurd heq.symm he)]

/-- The source's `if opportunity_keywords:` guard on the keyword bonus is
redundant: the capped bonus is already 0 on an empty list. -/
lemma kw_bonus (l : List String) :
    (if l.isEmpty then (0:ℚ)
      else ((min SCORING_opportunity_keywords_weight l.length : ℕ) : ℚ)) =
    ((min SCORING_opportunity_keywords_weight l.length : ℕ) : ℚ) := by
  cases l with
  | nil => simp
  | cons x xs => simp

/-- The per-deal score computed by the source loop equals the claim's
formula. -/
lemma score_one_eq_claim_score (deals : List Deal) (d : Deal) :
    score_one (listMin (deals.map (fun d => d.potential_profit)))
      (listMax (deals.map (fun d => d.potential_profit)) -
        listMin (deals.map (fun d => d.potential_profit)))
      (listMin (deals.map (fun d => d.roi)))
      (listMax (deals.map (fun d => d.roi)) - listMin (deals.map (fun d => d.roi)))
      (listMin (deals.map (fun d => d.repair_costs)))
      (listMax (deals.map (fun d => d.repair_costs)) -
        listMin (deals.map (fun d => d.repair_costs)))
      (listMin (deals.map (fun d => d.days_on_market)))
      (listMax (deals.map (fun d => d.days_on_market)) -
        listMin (deals.map (fun d => d.days_on_market)))
      d = claim_score deals d := by
  simp only [score_one, claim_score]
  rw [ite_range _ _ _ (listMin_le_listMax (deals.map (fun d => d.potential_profit))),
    ite_range _ _ _ (listMin_le_listMax (deals.map (fun d => d.roi))),
    ite_range _ _ _ (listMin_le_listMax (deals.map (fun d => d.repair_costs))),
    ite_range _ _ _ (listMin_le_listMax (deals.map (fun d => d.days_on_market))),
    kw_bonus]

/-- Claim C6: on a nonempty batch, `score_deals` assigns each deal the
min–max-normalised weighted score (profit, ROI, inverted repair cost, DOM;
a metric contributes exactly 0 when its batch max equals its min), plus the
capped keyword bonus and the flat 70%-rule bonus, and returns the batch
sorted descending by score.  When all four metrics are constant across the
batch, each deal's score is exactly its keyword bonus plus its 70%-rule
bonus, so only the bonuses determine the ranking. -/
theorem claim_C6_scorer (deals : List Deal) (h : deals ≠ []) :
    (score_deals deals).Perm
      (deals.map (fun d => { d with score := claim_score deals d })) ∧
    List.Pairwise (fun a b : Deal => b.score ≤ a.score) (score_deals deals) ∧
    ((∀ d ∈ deals, ∀ e ∈ deals, d.potential_profit = e.potential_profit ∧
        d.roi = e.roi ∧ d.repair_costs = e.repair_costs ∧
        d.days_on_market = e.days_on_market) →
      ∀ d ∈ deals, claim_score deals d =
        ((min SCORING_opportunity_keywords_weight d.opportunity_keywords.length : ℕ) : ℚ) +
        (if d.meets_70_percent_rule then SCORING_meets_70_rule_weight else 0)) := by
  have hunfold : score_deals deals =
      (deals.map (fun d => { d with score := claim_score deals d })).mergeSort
        (fun a b => decide (b.score ≤ a.score)) := by
    simp only [score_deals]
    rw [if_neg h]
    congr 1
    exact List.map_congr_left (fun d _ => by rw [score_one_eq_claim_score])
  refine ⟨?_, ?_, ?_⟩
  · rw [hunfold]
    exact List.mergeSort_perm _ _
  · rw [hunfold]
    refine (@List.sorted_mergeSort Deal (fun a b => decide (b.score ≤ a.score)) ?_ ?_
      (deals.map (fun d => { d with score := claim_score deals d }))).imp
      (fun hab => of_decide_eq_true hab)
    · exact fun a b c hab hbc =>
        decide_eq_true (le_trans (of_decide_eq_true hbc) (of_decide_eq_true hab))
    · exact fun a b => by rcases le_total b.score a.score with hab | hab <;> simp [hab]
  · intro hall d hd
    obtain ⟨d0, rest, rfl⟩ := List.exists_cons_of_ne_nil h
    have hconst : ∀ (f : Deal → ℚ),
        (∀ a ∈ d0 :: rest, ∀ b ∈ d0 :: rest, f a = f b) →
        listMax ((d0 :: rest).map f) = listMin ((d0 :: rest).map f) := by
      intro f hf
      apply listMax_eq_listMin_of_const _ (f d0)
      intro x hx
      obtain ⟨e, he, rfl⟩ := List.mem_map.mp hx
      exact hf e he d0 (List.mem_cons_self _ _)
    simp only [claim_score]
    rw [if_pos (hconst _ (fun a ha b hb => (hall a ha b hb).1)),
      if_pos (hconst _ (fun a ha b hb => (hall a ha b hb).2.1)),
      if_pos (hconst _ (fun a ha b hb => (hall a ha b hb).2.2.1)),
      if_pos (hconst _ (fun a ha b hb => (hall a ha b hb).2.2.2))]
    ring

/-- Witness for C6: a two-deal batch with identical metrics where only the
bonuses (three keywords and the 70% rule for the second deal) differ. -/
theorem claim_C6_witness :
    (score_deals [dealW1, dealW2]).Perm
      ([dealW1, dealW2].map (fun d => { d with score := claim_score [dealW1, dealW2] d })) ∧
    List.Pairwise (fun a b : Deal => b.score ≤ a.score) (score_deals [dealW1, dealW2]) ∧
    ((∀ d ∈ [dealW1, dealW2], ∀ e ∈ [dealW1, dealW2],
        d.potential_profit = e.potential_profit ∧ d.roi = e.roi ∧
        d.repair_costs = e.repair_costs ∧ d.days_on_market = e.days_on_market) →
      ∀ d ∈ [dealW1, dealW2], claim_score [dealW1, dealW2] d =
        ((min SCORING_opportunity_keywords_weight d.opportunity_keywords.length : ℕ) : ℚ) +
        (if d.meets_70_percent_rule then SCORING_meets_70_rule_weight else 0)) :=
  claim_C6_scorer [dealW1, dealW2] (by simp)

end Flipper
